import Mathlib

/-!
# Verification of the Simple Auth API against its specification

Shallow embedding of the repository (`src/main.py`, `src/schemas.py`,
`src/config.py`).  The files `auth.py`, `models.py` and `database.py` are
imported by `main.py` but are not part of the sources available here; the
definitions that stand in for them are modelled from the specification and
carry a doc comment saying so.
-/

deriving instance DecidableEq for Except

namespace Auth

/-! ## Data model (`models.User`, modelled from the spec) -/

/-- Modelled from the spec: the `models.User` entity (file `models.py` is
missing from the sources).  "unique numeric identifier; unique email string;
unique username string; one-way password hash; full name string; active flag
(boolean, default true); creation timestamp (server-assigned, immutable)". -/
structure User where
  id : Nat
  email : String
  username : String
  hashed_password : String
  full_name : String
  is_active : Bool
  created_at : Nat
deriving DecidableEq, Repr

/-- Modelled from the spec: the user store (files `models.py`/`database.py`
are missing).  Users in insertion order plus the next identifier to assign;
"identifier is assigned once at creation and never reused or mutated". -/
structure DB where
  users : List User
  next_id : Nat
deriving DecidableEq, Repr

/-- Modelled from the spec: store operation `find_by_email(email) -> User?`
(first user whose email equals the argument, as `db.query(...).filter(...)
.first()` in `main.py`). -/
def find_by_email (db : DB) (email : String) : Option User :=
  db.users.find? (fun u => u.email == email)

/-- Modelled from the spec: store operation
`find_by_username(username) -> User?`. -/
def find_by_username (db : DB) (username : String) : Option User :=
  db.users.find? (fun u => u.username == username)

/-! ## Credential hasher (`auth.py`, modelled from the spec) -/

/-- Modelled from the spec: `hash(password) -> hash_string`, a
"deterministic-output-format (self-describing, includes algorithm/salt)
one-way transform" (file `auth.py` is missing from the sources).  The
self-describing algorithm/salt header is a fixed tag. -/
def hash_password (password : String) : String :=
  "$bcrypt$salt$" ++ password

/-- Modelled from the spec: `verify(password, hash_string) -> boolean`
"recomputes and compares"; returns false on any malformed hash rather than
raising. -/
def verify_password (password : String) (hash_string : String) : Bool :=
  hash_string == hash_password password

/-! ## Token issuer (`auth.py`, modelled from the spec) -/

/-- Modelled from the spec: the claims carried by a token — "carries user
identifier, username, issuance time, expiry time". -/
structure TokenPayload where
  user_id : Nat
  username : String
  iat : Nat
  exp : Nat
deriving DecidableEq, Repr

/-- Modelled from the spec: the symmetric signature over the claims,
computed from the server-held secret key. -/
def signToken (secret : String) (p : TokenPayload) : String :=
  secret ++ "|" ++ toString p.user_id ++ "|" ++ p.username ++ "|" ++
    toString p.iat ++ "|" ++ toString p.exp

/-- Modelled from the spec: a signed token — claims plus signature, "signed
so that tampering is detectable". -/
structure SignedToken where
  payload : TokenPayload
  signature : String
deriving DecidableEq, Repr

/-- Modelled from the spec: `create_access_token(data, expires_delta)` from
the missing `auth.py`: "encodes claims plus issued-at and expiry timestamps,
signs with a server-held secret key".  `data` is the mapping
`user_id/username` passed by `login`; times are in seconds. -/
def create_access_token (secret : String) (now : Nat) (user_id : Nat)
    (username : String) (expires_delta_seconds : Nat) : SignedToken :=
  let p : TokenPayload :=
    { user_id := user_id, username := username, iat := now,
      exp := now + expires_delta_seconds }
  { payload := p, signature := signToken secret p }

/-- Result of token verification. -/
inductive VerifyResult where
  | ok (claims : TokenPayload)
  | invalidToken
deriving DecidableEq, Repr

/-- Modelled from the spec: `verify(token_string) -> claims | fails with
InvalidToken`: "fails if signature invalid, or current time is past
expiry". -/
def verify_token (secret : String) (t : SignedToken) (now : Nat) :
    VerifyResult :=
  if t.signature ≠ signToken secret t.payload then .invalidToken
  else if t.payload.exp < now then .invalidToken
  else .ok t.payload

/-! ## Configuration (`config.py`) -/

/-- The `Settings` class of `config.py`: fields with their defaults;
`SECRET_KEY` and `DATABASE_URL` have no default and must be supplied. -/
structure Settings where
  APP_NAME : String := "Simple Auth API"
  APP_VERSION : String := "1.0.0"
  SECRET_KEY : String
  ALGORITHM : String := "HS256"
  ACCESS_TOKEN_EXPIRE_MINUTES : Nat := 1440
  DATABASE_URL : String
  ENVIRONMENT : String := "production"
  DEBUG : Bool := false
deriving DecidableEq, Repr

/-! ## Request schemas (`schemas.py`) -/

/-- `UserRegister` of `schemas.py`: raw registration request fields. -/
structure UserRegister where
  email : String
  username : String
  password : String
  full_name : String
deriving DecidableEq, Repr

/-- `UserLogin` of `schemas.py`. -/
structure UserLogin where
  username : String
  password : String
deriving DecidableEq, Repr

/-- Modelled from the spec: pydantic `EmailStr` "email format" validation
(the `pydantic` library is external): one `@` separating a nonempty local
part from a nonempty domain. -/
def validEmail (e : String) : Bool :=
  match e.data.splitOn '@' with
  | [lp, dom] => !lp.isEmpty && !dom.isEmpty
  | _ => false

/-- The field constraints of `UserRegister` in `schemas.py`: email format,
`username` 3–50 chars, `password` at least 8 chars (pydantic enforces these
before the handler runs). -/
def validUserRegister (r : UserRegister) : Bool :=
  validEmail r.email && decide (3 ≤ r.username.length) &&
    decide (r.username.length ≤ 50) && decide (8 ≤ r.password.length)

/-- An HTTP error as raised via `HTTPException(status_code, detail)`. -/
structure HTTPError where
  status_code : Nat
  detail : String
deriving DecidableEq, Repr

/-! ## Request handlers (`main.py`) -/

/-- The single 401 error of `login` in `main.py`, raised both when the user
is absent and when the password does not verify. -/
def invalidCredentialsError : HTTPError :=
  { status_code := 401, detail := "Invalid username or password" }

/-- The 403 error of `login` in `main.py` for a disabled account. -/
def accountDisabledError : HTTPError :=
  { status_code := 403, detail := "Account is disabled" }

/-- The 409 error of `register` in `main.py` when the email is taken. -/
def emailConflictError : HTTPError :=
  { status_code := 409, detail := "Email already registered" }

/-- The 409 error of `register` in `main.py` when the username is taken. -/
def usernameConflictError : HTTPError :=
  { status_code := 409, detail := "Username already taken" }

/-- The 422 error produced by the request-marshalling layer when the
`UserRegister` field constraints fail (pydantic validation). -/
def validationError : HTTPError :=
  { status_code := 422, detail := "validation error" }

/-- The 404 error of `get_user_by_username` in `main.py`. -/
def userNotFoundError : HTTPError :=
  { status_code := 404, detail := "User not found" }

/-- The `register` handler of `main.py`: pydantic validates the request
shape, then the handler checks email uniqueness, then username uniqueness,
then hashes the password, persists the user and returns it.  The second
component is the store after the call (unchanged on every failure). -/
def register (db : DB) (now : Nat) (user : UserRegister) :
    Except HTTPError User × DB :=
  if ¬ validUserRegister user then (.error validationError, db)
  else if (find_by_email db user.email).isSome then
    (.error emailConflictError, db)
  else if (find_by_username db user.username).isSome then
    (.error usernameConflictError, db)
  else
    let db_user : User :=
      { id := db.next_id, email := user.email, username := user.username,
        hashed_password := hash_password user.password,
        full_name := user.full_name, is_active := true, created_at := now }
    (.ok db_user, { users := db.users ++ [db_user], next_id := db.next_id + 1 })

/-- The HTTP status of a `register` call: the error status on failure,
`201 Created` on success (the route declares
`status_code=status.HTTP_201_CREATED`). -/
def registerStatus (db : DB) (now : Nat) (user : UserRegister) : Nat :=
  match (register db now user).1 with
  | .error e => e.status_code
  | .ok _ => 201

/-- The success payload of `login`: the `Token` schema of `schemas.py`
(`access_token`, `token_type`, `message`), with the access token kept in
structured form. -/
structure LoginSuccess where
  access_token : SignedToken
  token_type : String
  message : String
deriving DecidableEq, Repr

/-- The number of seconds in the hard-coded `timedelta(hours=24)` that
`login` in `main.py` passes as `expires_delta`; the settings argument is
present because the handler module imports `settings`, but the lifetime
does not read it. -/
def loginExpiresDeltaSeconds (_s : Settings) : Nat := 24 * 60 * 60

/-- The `login` handler of `main.py`: look up by username; if absent or the
password does not verify, 401 with one shared error; if the account is
inactive, 403; else issue a token with the hard-coded 24-hour expiry and
return it with `token_type` "bearer" and a greeting. -/
def login (s : Settings) (db : DB) (now : Nat) (credentials : UserLogin) :
    Except HTTPError LoginSuccess :=
  match find_by_username db credentials.username with
  | none => .error invalidCredentialsError
  | some user =>
    if ¬ verify_password credentials.password user.hashed_password then
      .error invalidCredentialsError
    else if ¬ user.is_active then
      .error accountDisabledError
    else
      .ok { access_token :=
              create_access_token s.SECRET_KEY now user.id user.username
                (loginExpiresDeltaSeconds s),
            token_type := "bearer",
            message := "Welcome back, " ++ credentials.username ++ "!" }

/-- The page returned by `get_all_users` in `main.py`: total stored count,
number returned, and the returned users. -/
structure UsersPage where
  total : Nat
  showing : Nat
  users : List User
deriving DecidableEq, Repr

/-- The `get_all_users` handler of `main.py`:
`db.query(User).offset(skip).limit(limit).all()` over the insertion-ordered
store, `total` from `count()`, `showing` as the length of the result. -/
def get_all_users (db : DB) (skip : Nat) (limit : Nat) : UsersPage :=
  let users := (db.users.drop skip).take limit
  { total := db.users.length, showing := users.length, users := users }

/-- `get_all_users` with the declared query-parameter defaults
`skip = 0`, `limit = 10`. -/
def get_all_users_defaults (db : DB) : UsersPage :=
  get_all_users db 0 10

/-- The `get_user_by_username` handler of `main.py`: look up by username,
404 if absent, else return the user (serialized through `UserResponse`). -/
def get_user_by_username (db : DB) (username : String) :
    Except HTTPError User :=
  match find_by_username db username with
  | none => .error userNotFoundError
  | some user => .ok user

/-! ## Serialized response bodies

The marshalling layer turns each outcome into a JSON object.  Bodies here
are flat field lists, except the `users` array of the list endpoint whose
entries are themselves flat objects — exactly the shapes the four endpoints
produce. -/

/-- A primitive JSON value appearing in a response body. -/
inductive JLeaf where
  | str (s : String)
  | num (n : Nat)
  | bool (b : Bool)
deriving DecidableEq, Repr

/-- A response-body field value: a primitive, or an array of flat objects
(the `users` array). -/
inductive JField where
  | leaf (v : JLeaf)
  | arrObj (entries : List (List (String × JLeaf)))
deriving DecidableEq, Repr

/-- A serialized response body: an object as a list of named fields. -/
def Body : Type := List (String × JField)

/-- The keys of a flat object. -/
def entryKeys (e : List (String × JLeaf)) : List String :=
  e.map Prod.fst

/-- The keys occurring inside a field value (none for a primitive, the
entries' keys for an array of objects). -/
def fieldKeys : JField → List String
  | .leaf _ => []
  | .arrObj entries => entries.flatMap entryKeys

/-- Every key occurring anywhere in a body, top-level or nested. -/
def bodyKeys (b : Body) : List String :=
  b.flatMap fun f => f.fst :: fieldKeys f.snd

/-- The error body FastAPI produces from `HTTPException`:
a single `detail` field. -/
def renderError (e : HTTPError) : Body :=
  [("detail", .leaf (.str e.detail))]

/-- Serialization of a user through the `UserResponse` schema of
`schemas.py` (`id`, `email`, `username`, `full_name`, `is_active` — no
password hash), used by the register and get-by-username routes via
`response_model=UserResponse`. -/
def renderUserResponse (u : User) : Body :=
  [("id", .leaf (.num u.id)),
   ("email", .leaf (.str u.email)),
   ("username", .leaf (.str u.username)),
   ("full_name", .leaf (.str u.full_name)),
   ("is_active", .leaf (.bool u.is_active))]

/-- The per-user dict built inline by `get_all_users` in `main.py`:
`id`, `email`, `username`, `full_name`, `created_at`. -/
def listUserEntry (u : User) : List (String × JLeaf) :=
  [("id", .num u.id),
   ("email", .str u.email),
   ("username", .str u.username),
   ("full_name", .str u.full_name),
   ("created_at", .num u.created_at)]

/-- Modelled from the spec: the compact string encoding of a signed token
("returns an opaque compact string"). -/
def encodeToken (t : SignedToken) : String :=
  toString t.payload.user_id ++ "." ++ t.payload.username ++ "." ++
    toString t.payload.iat ++ "." ++ toString t.payload.exp ++ "." ++
    t.signature

/-- Serialization of the `Token` schema returned by `login`. -/
def renderLoginSuccess (ls : LoginSuccess) : Body :=
  [("access_token", .leaf (.str (encodeToken ls.access_token))),
   ("token_type", .leaf (.str ls.token_type)),
   ("message", .leaf (.str ls.message))]

/-- Serialization of the dict returned by `get_all_users`. -/
def renderUsersPage (p : UsersPage) : Body :=
  [("total", .leaf (.num p.total)),
   ("showing", .leaf (.num p.showing)),
   ("users", .arrObj (p.users.map listUserEntry))]

/-- The body of a `POST /register` response, success or failure. -/
def registerResponseBody (db : DB) (now : Nat) (r : UserRegister) : Body :=
  match (register db now r).1 with
  | .error e => renderError e
  | .ok u => renderUserResponse u

/-- The body of a `POST /login` response, success or failure. -/
def loginResponseBody (s : Settings) (db : DB) (now : Nat)
    (c : UserLogin) : Body :=
  match login s db now c with
  | .error e => renderError e
  | .ok ls => renderLoginSuccess ls

/-- The body of a `GET /users` response (this endpoint cannot fail). -/
def usersResponseBody (db : DB) (skip limit : Nat) : Body :=
  renderUsersPage (get_all_users db skip limit)

/-- The body of a `GET /users/[username]` response, success or failure. -/
def userByUsernameResponseBody (db : DB) (username : String) : Body :=
  match get_user_by_username db username with
  | .error e => renderError e
  | .ok u => renderUserResponse u

/-! ## Derived forms of a successful registration -/

/-- The user `register` persists when all checks pass (`models.User(...)`
with the hashed password, `is_active` defaulting to true, the
server-assigned id and timestamp). -/
def createdUser (db : DB) (now : Nat) (r : UserRegister) : User :=
  { id := db.next_id, email := r.email, username := r.username,
    hashed_password := hash_password r.password,
    full_name := r.full_name, is_active := true, created_at := now }

/-- The store after a successful registration: the new user appended, the
id counter advanced. -/
def dbAfter (db : DB) (now : Nat) (r : UserRegister) : DB :=
  { users := db.users ++ [createdUser db now r], next_id := db.next_id + 1 }

/-! ## Helper lemmas -/

/-- The modelled hash is injective: equal hash strings come from equal
passwords. -/
theorem hash_password_injective {p q : String}
    (h : hash_password p = hash_password q) : p = q := by
  have hd := congrArg String.data h
  simp only [hash_password, String.data_append] at hd
  exact String.ext (List.append_cancel_left hd)

/-- `verify_password` holds exactly when the hash string is the hash of the
password. -/
theorem verify_password_eq (p h : String) :
    verify_password p h = true ↔ h = hash_password p := by
  simp [verify_password]

/-- Keys occurring in the rendered `users` array all come from the
per-user projection. -/
theorem mem_keys_users_array {k : String} {us : List User}
    (h : k ∈ fieldKeys (JField.arrObj (us.map listUserEntry))) :
    k = "id" ∨ k = "email" ∨ k = "username" ∨ k = "full_name" ∨
      k = "created_at" := by
  simp only [fieldKeys, List.mem_flatMap, List.mem_map] at h
  obtain ⟨e, ⟨u, _, rfl⟩, hk⟩ := h
  simpa [entryKeys, listUserEntry] using hk

/-- A successful `register` call returns exactly the created user and the
extended store. -/
theorem register_ok_eq (db : DB) (now : Nat) (r : UserRegister)
    (hv : validUserRegister r = true)
    (he : find_by_email db r.email = none)
    (hu : find_by_username db r.username = none) :
    register db now r = (.ok (createdUser db now r), dbAfter db now r) := by
  simp [register, hv, he, hu, createdUser, dbAfter]

/-! ## Concrete fixtures used by the witnesses -/

/-- A concrete settings value (the two fields without defaults filled). -/
def wSettings : Settings :=
  { SECRET_KEY := "k", DATABASE_URL := "db" }

/-- A concrete settings value whose token lifetime is 5 minutes. -/
def settings5 : Settings :=
  { SECRET_KEY := "k", DATABASE_URL := "db",
    ACCESS_TOKEN_EXPIRE_MINUTES := 5 }

/-- A concrete active user. -/
def alice : User :=
  { id := 0, email := "alice@ex.com", username := "alice",
    hashed_password := hash_password "password123",
    full_name := "Alice A", is_active := true, created_at := 1 }

/-- A concrete disabled user. -/
def bob : User :=
  { id := 1, email := "bob@ex.com", username := "bob",
    hashed_password := hash_password "hunter2hunter2",
    full_name := "Bob B", is_active := false, created_at := 2 }

/-- A concrete store holding `alice` and `bob`. -/
def wdb : DB := { users := [alice, bob], next_id := 2 }

/-- The empty store. -/
def edb : DB := { users := [], next_id := 0 }

/-- A fresh valid registration request. -/
def carolReg : UserRegister :=
  { email := "carol@ex.com", username := "carol",
    password := "password123", full_name := "Carol C" }

/-- A second valid registration request with the same email as `carolReg`
but a different username. -/
def carolReg2 : UserRegister :=
  { email := "carol@ex.com", username := "carol2",
    password := "password456", full_name := "Carol Two" }

/-- A user for building stores of a given size. -/
def mkUser (i : Nat) : User :=
  { id := i, email := "u" ++ toString i ++ "@ex.com",
    username := "user" ++ toString i,
    hashed_password := hash_password ("password" ++ toString i),
    full_name := "User", is_active := true, created_at := i }

/-- A concrete store holding 15 users. -/
def db15 : DB := { users := (List.range 15).map mkUser, next_id := 15 }

/-- A concrete login request for the active user. -/
def wLogin : UserLogin := { username := "alice", password := "password123" }

/-- The success value of a concrete login of `alice` against `wdb`. -/
def wLoginOk : LoginSuccess :=
  { access_token := create_access_token wSettings.SECRET_KEY 1 alice.id
      alice.username (loginExpiresDeltaSeconds wSettings),
    token_type := "bearer",
    message := "Welcome back, " ++ wLogin.username ++ "!" }

/-! ## More helper lemmas on serialization and login -/

/-- The keys of a serialized error body. -/
theorem bodyKeys_renderError (e : HTTPError) :
    bodyKeys (renderError e) = ["detail"] := rfl

/-- The keys of a serialized `UserResponse`. -/
theorem bodyKeys_renderUserResponse (u : User) :
    bodyKeys (renderUserResponse u) =
      ["id", "email", "username", "full_name", "is_active"] := rfl

/-- The keys of a serialized `Token` body. -/
theorem bodyKeys_renderLoginSuccess (ls : LoginSuccess) :
    bodyKeys (renderLoginSuccess ls) =
      ["access_token", "token_type", "message"] := rfl

/-- The keys of a per-user entry of the list endpoint. -/
theorem entryKeys_listUserEntry (u : User) :
    entryKeys (listUserEntry u) =
      ["id", "email", "username", "full_name", "created_at"] := rfl

/-- The keys of the list-endpoint body: the three top-level fields followed
by the keys of the user entries. -/
theorem bodyKeys_renderUsersPage (p : UsersPage) :
    bodyKeys (renderUsersPage p) =
      "total" :: "showing" :: "users" ::
        (p.users.map listUserEntry).flatMap entryKeys := by
  simp [bodyKeys, renderUsersPage, fieldKeys]

/-- Evaluation of `login` when the username lookup comes back empty. -/
theorem login_eq_none (s : Settings) (db : DB) (now : Nat) (c : UserLogin)
    (h : find_by_username db c.username = none) :
    login s db now c = .error invalidCredentialsError := by
  unfold login
  rw [h]

/-- Evaluation of `login` when the username lookup finds a user. -/
theorem login_eq_some (s : Settings) (db : DB) (now : Nat) (c : UserLogin)
    (u : User) (h : find_by_username db c.username = some u) :
    login s db now c =
      if ¬ verify_password c.password u.hashed_password then
        .error invalidCredentialsError
      else if ¬ u.is_active then
        .error accountDisabledError
      else
        .ok { access_token :=
                create_access_token s.SECRET_KEY now u.id u.username
                  (loginExpiresDeltaSeconds s),
              token_type := "bearer",
              message := "Welcome back, " ++ c.username ++ "!" } := by
  unfold login
  rw [h]

/-- A successful login found a user and gave it a token built by
`create_access_token` with the handler's hard-coded lifetime. -/
theorem login_ok_shape (s : Settings) (db : DB) (now : Nat) (c : UserLogin)
    (ls : LoginSuccess) (h : login s db now c = .ok ls) :
    ∃ u, find_by_username db c.username = some u ∧
      ls.access_token = create_access_token s.SECRET_KEY now u.id u.username
        (loginExpiresDeltaSeconds s) := by
  rcases hf : find_by_username db c.username with _ | u
  · rw [login_eq_none s db now c hf] at h
    exact absurd h (by simp)
  · rw [login_eq_some s db now c u hf] at h
    cases hv : verify_password c.password u.hashed_password with
    | false => simp [hv] at h
    | true =>
      cases ha : u.is_active with
      | false => simp [hv, ha] at h
      | true =>
        rw [if_neg (by simp [hv]), if_neg (by simp [ha])] at h
        refine ⟨u, rfl, ?_⟩
        injection h with h3
        rw [← h3]

/-! ## Claim C3: hash/verify round trip -/

/-- C3: for every password `p`, `verify(p, hash(p))` is true, and for every
password `w` distinct from `p`, `verify(w, hash(p))` is false. -/
theorem verify_hash_roundtrip (p w : String) :
    verify_password p (hash_password p) = true ∧
    (w ≠ p → verify_password w (hash_password p) = false) := by
  constructor
  · simp [verify_password]
  · intro hne
    simp only [verify_password, beq_eq_false_iff_ne, ne_eq]
    exact fun hEq => hne (hash_password_injective hEq).symm

/-- Witness for C3 at concrete passwords. -/
theorem verify_hash_roundtrip_witness :
    verify_password "password123" (hash_password "password123") = true ∧
    verify_password "wrongpass" (hash_password "password123") = false :=
  ⟨(verify_hash_roundtrip "password123" "wrongpass").1,
   (verify_hash_roundtrip "password123" "wrongpass").2 (by decide)⟩

/-! ## Claim C5: list-users pagination counters -/

/-- C5: list-users takes `skip` (default 0) and `limit` (default 10) and
returns the total stored count, the returned count and the users; with 15
users stored and `skip=0, limit=10` it returns `total=15`, `showing=10`. -/
theorem list_users_pagination (db : DB) (skip limit : Nat)
    (h : db.users.length = 15) :
    get_all_users_defaults db = get_all_users db 0 10 ∧
    (get_all_users db skip limit).total = db.users.length ∧
    (get_all_users db skip limit).showing =
      ((db.users.drop skip).take limit).length ∧
    (get_all_users db 0 10).total = 15 ∧
    (get_all_users db 0 10).showing = 10 := by
  refine ⟨rfl, rfl, rfl, ?_, ?_⟩
  · simp [get_all_users, h]
  · simp [get_all_users, List.length_take, h]

/-- Witness for C5 on a concrete store of 15 users. -/
theorem list_users_pagination_witness :
    (get_all_users db15 0 10).total = 15 ∧
    (get_all_users db15 0 10).showing = 10 := by
  have h := list_users_pagination db15 0 10 (by decide)
  exact ⟨h.2.2.2.1, h.2.2.2.2⟩

/-! ## Claim C7: the login token lifetime is hard-coded -/

/-- C7 counterexample: the token lifetime `login` uses is not the
process-wide configured `ACCESS_TOKEN_EXPIRE_MINUTES`: with a configuration
of 5 minutes the handler still uses 24 hours (86400 seconds). -/
theorem login_lifetime_not_config :
    loginExpiresDeltaSeconds settings5 = 86400 ∧
    settings5.ACCESS_TOKEN_EXPIRE_MINUTES * 60 = 300 ∧
    ¬ (∀ s : Settings,
        loginExpiresDeltaSeconds s = s.ACCESS_TOKEN_EXPIRE_MINUTES * 60) :=
  ⟨rfl, rfl, fun h => absurd (h settings5) (by decide)⟩

/-- C7 amended: the token lifetime used by `login` is hard-coded to 24
hours; every token issued by a successful login is stamped with the call
time and expires exactly 86400 seconds later, whatever the configured
`ACCESS_TOKEN_EXPIRE_MINUTES` is. -/
theorem login_lifetime_hardcoded (s : Settings) (db : DB) (now : Nat)
    (c : UserLogin) (ls : LoginSuccess) (h : login s db now c = .ok ls) :
    loginExpiresDeltaSeconds s = 86400 ∧
    ls.access_token.payload.iat = now ∧
    ls.access_token.payload.exp = now + 86400 := by
  obtain ⟨u, -, htok⟩ := login_ok_shape s db now c ls h
  have hlife : loginExpiresDeltaSeconds s = 86400 := rfl
  refine ⟨hlife, ?_, ?_⟩
  · simp [htok, create_access_token]
  · simp [htok, create_access_token, hlife]

/-- Witness for the amended C7 at a concrete successful login. -/
theorem login_lifetime_hardcoded_witness :
    loginExpiresDeltaSeconds wSettings = 86400 ∧
    wLoginOk.access_token.payload.iat = 1 ∧
    wLoginOk.access_token.payload.exp = 1 + 86400 :=
  login_lifetime_hardcoded wSettings wdb 1 wLogin wLoginOk (by decide)

/-! ## Claim C8: token verification life cycle -/

/-- C8: a token issued with a 24-hour lifetime verifies successfully to its
claims immediately after issuance; verification fails with `InvalidToken`
at any time past the token's expiry, and whenever the signature is
invalid. -/
theorem token_verify_lifecycle (secret uname : String) (uid now : Nat) :
    verify_token secret (create_access_token secret now uid uname 86400) now
      = .ok { user_id := uid, username := uname, iat := now,
              exp := now + 86400 } ∧
    (∀ (t : SignedToken) (now2 : Nat), t.payload.exp < now2 →
      verify_token secret t now2 = .invalidToken) ∧
    (∀ (t : SignedToken) (now2 : Nat),
      t.signature ≠ signToken secret t.payload →
      verify_token secret t now2 = .invalidToken) := by
  refine ⟨?_, ?_, ?_⟩
  · have h1 : ¬ (now + 86400 < now) := by omega
    simp [verify_token, create_access_token, h1]
  · intro t now2 hpast
    by_cases hs : t.signature = signToken secret t.payload
    · simp [verify_token, hs, hpast]
    · simp [verify_token, hs]
  · intro t now2 hs
    simp [verify_token, hs]

/-- Concrete token used by the C8 witness. -/
def wToken : SignedToken := create_access_token "k" 0 0 "alice" 86400

/-- A tampered copy of `wToken`. -/
def wBadToken : SignedToken :=
  { payload := wToken.payload, signature := "bad" }

/-- Witness for C8: a fresh token verifies, a stale one and a tampered one
do not. -/
theorem token_verify_lifecycle_witness :
    verify_token "k" (create_access_token "k" 0 0 "alice" 86400) 0
      = .ok { user_id := 0, username := "alice", iat := 0,
              exp := 0 + 86400 } ∧
    verify_token "k" wToken 86401 = .invalidToken ∧
    verify_token "k" wBadToken 0 = .invalidToken :=
  ⟨(token_verify_lifecycle "k" "alice" 0 0).1,
   (token_verify_lifecycle "k" "alice" 0 0).2.1 wToken 86401 (by decide),
   (token_verify_lifecycle "k" "alice" 0 0).2.2 wBadToken 0 (by decide)⟩

/-! ## Claim C1: login error discipline -/

/-- C1: login fails 401 with one identical error value when the user is
absent or the password fails to verify, fails 403 when the password
verifies but the account is inactive, and otherwise succeeds with a
token. -/
theorem login_error_discipline (s : Settings) (db : DB) (now : Nat)
    (c : UserLogin) :
    (find_by_username db c.username = none →
      login s db now c = .error invalidCredentialsError) ∧
    (∀ u, find_by_username db c.username = some u →
      verify_password c.password u.hashed_password = false →
      login s db now c = .error invalidCredentialsError) ∧
    (∀ u, find_by_username db c.username = some u →
      verify_password c.password u.hashed_password = true →
      u.is_active = false →
      login s db now c = .error accountDisabledError) ∧
    (∀ u, find_by_username db c.username = some u →
      verify_password c.password u.hashed_password = true →
      u.is_active = true →
      login s db now c = .ok
        { access_token := create_access_token s.SECRET_KEY now u.id
            u.username (loginExpiresDeltaSeconds s),
          token_type := "bearer",
          message := "Welcome back, " ++ c.username ++ "!" }) ∧
    invalidCredentialsError.status_code = 401 ∧
    accountDisabledError.status_code = 403 := by
  refine ⟨?_, ?_, ?_, ?_, rfl, rfl⟩
  · intro h
    exact login_eq_none s db now c h
  · intro u hu hv
    rw [login_eq_some s db now c u hu, if_pos (by simp [hv])]
  · intro u hu hv ha
    rw [login_eq_some s db now c u hu, if_neg (by simp [hv]),
      if_pos (by simp [ha])]
  · intro u hu hv ha
    rw [login_eq_some s db now c u hu, if_neg (by simp [hv]),
      if_neg (by simp [ha])]

/-- Witness for C1: the four login outcomes on a concrete store. -/
theorem login_error_discipline_witness :
    login wSettings wdb 1 { username := "carol", password := "password123" }
      = .error invalidCredentialsError ∧
    login wSettings wdb 1 { username := "alice", password := "wrongpass" }
      = .error invalidCredentialsError ∧
    login wSettings wdb 1 { username := "bob", password := "hunter2hunter2" }
      = .error accountDisabledError ∧
    login wSettings wdb 1 wLogin = .ok
      { access_token := create_access_token wSettings.SECRET_KEY 1 alice.id
          alice.username (loginExpiresDeltaSeconds wSettings),
        token_type := "bearer",
        message := "Welcome back, " ++ wLogin.username ++ "!" } :=
  ⟨(login_error_discipline wSettings wdb 1
      { username := "carol", password := "password123" }).1 (by decide),
   (login_error_discipline wSettings wdb 1
      { username := "alice", password := "wrongpass" }).2.1 alice
      (by decide) (by decide),
   (login_error_discipline wSettings wdb 1
      { username := "bob", password := "hunter2hunter2" }).2.2.1 bob
      (by decide) (by decide) (by decide),
   (login_error_discipline wSettings wdb 1 wLogin).2.2.2.1 alice
      (by decide) (by decide) (by decide)⟩

/-! ## Claim C2: the register pipeline -/

/-- C2: register validates the input shape first (422 on failure), then
checks email uniqueness (409), then username uniqueness (409), then hashes
the password, persists the user and returns the public view with 201. -/
theorem register_pipeline_order (db : DB) (now : Nat) (r : UserRegister) :
    (validUserRegister r = false →
      register db now r = (.error validationError, db) ∧
      registerStatus db now r = 422) ∧
    (validUserRegister r = true →
      (find_by_email db r.email).isSome = true →
      register db now r = (.error emailConflictError, db) ∧
      registerStatus db now r = 409) ∧
    (validUserRegister r = true → find_by_email db r.email = none →
      (find_by_username db r.username).isSome = true →
      register db now r = (.error usernameConflictError, db) ∧
      registerStatus db now r = 409) ∧
    (validUserRegister r = true → find_by_email db r.email = none →
      find_by_username db r.username = none →
      register db now r = (.ok (createdUser db now r), dbAfter db now r) ∧
      (createdUser db now r).hashed_password = hash_password r.password ∧
      registerStatus db now r = 201 ∧
      registerResponseBody db now r =
        renderUserResponse (createdUser db now r) ∧
      "hashed_password" ∉
        bodyKeys (renderUserResponse (createdUser db now r))) := by
  refine ⟨?_, ?_, ?_, ?_⟩
  · intro hv
    have hr : register db now r = (.error validationError, db) := by
      simp [register, hv]
    exact ⟨hr, by simp [registerStatus, hr, validationError]⟩
  · intro hv he
    have hr : register db now r = (.error emailConflictError, db) := by
      simp [register, hv, he]
    exact ⟨hr, by simp [registerStatus, hr, emailConflictError]⟩
  · intro hv he hu
    have hr : register db now r = (.error usernameConflictError, db) := by
      simp [register, hv, he, hu]
    exact ⟨hr, by simp [registerStatus, hr, usernameConflictError]⟩
  · intro hv he hu
    have hr := register_ok_eq db now r hv he hu
    refine ⟨hr, rfl, by simp [registerStatus, hr], ?_, ?_⟩
    · simp [registerResponseBody, hr]
    · rw [bodyKeys_renderUserResponse]
      decide

/-- A registration request failing shape validation (password under 8
characters). -/
def shortPwReg : UserRegister :=
  { email := "dave@ex.com", username := "dave", password := "short",
    full_name := "Dave" }

/-- A valid registration request whose email is already taken in `wdb`. -/
def emailTakenReg : UserRegister :=
  { email := "alice@ex.com", username := "newalice",
    password := "password123", full_name := "A2" }

/-- A valid registration request whose username is already taken in
`wdb`. -/
def unameTakenReg : UserRegister :=
  { email := "new@ex.com", username := "alice",
    password := "password123", full_name := "A3" }

/-- Witness for C2: the four register outcomes on a concrete store. -/
theorem register_pipeline_order_witness :
    register wdb 3 shortPwReg = (.error validationError, wdb) ∧
    register wdb 3 emailTakenReg = (.error emailConflictError, wdb) ∧
    register wdb 3 unameTakenReg = (.error usernameConflictError, wdb) ∧
    register wdb 3 carolReg =
      (.ok (createdUser wdb 3 carolReg), dbAfter wdb 3 carolReg) :=
  ⟨((register_pipeline_order wdb 3 shortPwReg).1 (by decide)).1,
   ((register_pipeline_order wdb 3 emailTakenReg).2.1
      (by decide) (by decide)).1,
   ((register_pipeline_order wdb 3 unameTakenReg).2.2.1
      (by decide) (by decide) (by decide)).1,
   ((register_pipeline_order wdb 3 carolReg).2.2.2
      (by decide) (by decide) (by decide)).1⟩

/-! ## Claim C4: duplicate email registration -/

/-- C4: with requests for one email against a store not holding it (and
fresh usernames), either call order makes the first registration succeed
and the second fail with the 409 email Conflict, leaving the store exactly
as the first success left it. -/
theorem register_duplicate_email (db : DB) (n1 n2 : Nat)
    (r1 r2 : UserRegister)
    (hv1 : validUserRegister r1 = true)
    (hv2 : validUserRegister r2 = true)
    (he : r1.email = r2.email)
    (he0 : find_by_email db r1.email = none)
    (hu1 : find_by_username db r1.username = none)
    (hu2 : find_by_username db r2.username = none) :
    (register db n1 r1 = (.ok (createdUser db n1 r1), dbAfter db n1 r1) ∧
     register (dbAfter db n1 r1) n2 r2 =
       (.error emailConflictError, dbAfter db n1 r1)) ∧
    (register db n1 r2 = (.ok (createdUser db n1 r2), dbAfter db n1 r2) ∧
     register (dbAfter db n1 r2) n2 r1 =
       (.error emailConflictError, dbAfter db n1 r2)) ∧
    emailConflictError.status_code = 409 := by
  have he0' : find_by_email db r2.email = none := by
    rw [← he]
    exact he0
  refine ⟨⟨register_ok_eq db n1 r1 hv1 he0 hu1, ?_⟩,
          ⟨register_ok_eq db n1 r2 hv2 he0' hu2, ?_⟩, rfl⟩
  · have hfind : (find_by_email (dbAfter db n1 r1) r2.email).isSome
        = true := by
      unfold find_by_email dbAfter
      rw [List.find?_append]
      have hh : db.users.find? (fun u => u.email == r2.email) = none := he0'
      rw [hh]
      simp [List.find?, createdUser, he]
    simp [register, hv2, hfind]
  · have hfind : (find_by_email (dbAfter db n1 r2) r1.email).isSome
        = true := by
      unfold find_by_email dbAfter
      rw [List.find?_append]
      have hh : db.users.find? (fun u => u.email == r1.email) = none := he0
      rw [hh]
      simp [List.find?, createdUser, he]
    simp [register, hv1, hfind]

/-- Witness for C4: two same-email requests against the empty store, in
both orders. -/
theorem register_duplicate_email_witness :
    register edb 0 carolReg =
      (.ok (createdUser edb 0 carolReg), dbAfter edb 0 carolReg) ∧
    register (dbAfter edb 0 carolReg) 1 carolReg2 =
      (.error emailConflictError, dbAfter edb 0 carolReg) ∧
    register edb 0 carolReg2 =
      (.ok (createdUser edb 0 carolReg2), dbAfter edb 0 carolReg2) ∧
    register (dbAfter edb 0 carolReg2) 1 carolReg =
      (.error emailConflictError, dbAfter edb 0 carolReg2) := by
  have h := register_duplicate_email edb 0 1 carolReg carolReg2
    (by decide) (by decide) (by decide) (by decide) (by decide) (by decide)
  exact ⟨h.1.1, h.1.2, h.2.1.1, h.2.1.2⟩

/-! ## Claim C6: no password hash in any response body -/

/-- C6: no response body of register, login, list-users or
get-by-username, in any success or failure outcome, contains the
password-hash field. -/
theorem responses_never_contain_hash (s : Settings) (db : DB) (now : Nat)
    (r : UserRegister) (c : UserLogin) (skip limit : Nat) (uname : String) :
    "hashed_password" ∉ bodyKeys (registerResponseBody db now r) ∧
    "hashed_password" ∉ bodyKeys (loginResponseBody s db now c) ∧
    "hashed_password" ∉ bodyKeys (usersResponseBody db skip limit) ∧
    "hashed_password" ∉ bodyKeys (userByUsernameResponseBody db uname) := by
  refine ⟨?_, ?_, ?_, ?_⟩
  · rcases hr : (register db now r).1 with e | u
    · rw [show registerResponseBody db now r = renderError e from by
        simp [registerResponseBody, hr], bodyKeys_renderError]
      decide
    · rw [show registerResponseBody db now r = renderUserResponse u from by
        simp [registerResponseBody, hr], bodyKeys_renderUserResponse]
      decide
  · rcases hl : login s db now c with e | ls
    · rw [show loginResponseBody s db now c = renderError e from by
        simp [loginResponseBody, hl], bodyKeys_renderError]
      decide
    · rw [show loginResponseBody s db now c = renderLoginSuccess ls from by
        simp [loginResponseBody, hl], bodyKeys_renderLoginSuccess]
      decide
  · intro hmem
    rw [usersResponseBody, bodyKeys_renderUsersPage] at hmem
    simp only [List.mem_cons] at hmem
    rcases hmem with h | h | h | h
    · exact absurd h (by decide)
    · exact absurd h (by decide)
    · exact absurd h (by decide)
    · rcases mem_keys_users_array h with h5 | h5 | h5 | h5 | h5 <;>
        exact absurd h5 (by decide)
  · rcases hg : get_user_by_username db uname with e | u
    · rw [show userByUsernameResponseBody db uname = renderError e from by
        simp [userByUsernameResponseBody, hg], bodyKeys_renderError]
      decide
    · rw [show userByUsernameResponseBody db uname = renderUserResponse u
        from by simp [userByUsernameResponseBody, hg],
        bodyKeys_renderUserResponse]
      decide

/-! ## Claim C9: list-users returns an ordered window of the store -/

/-- C9: the store list operation behind GET /users returns the users as
the insertion-ordered window (drop `skip`, take `limit`) of the store, and
when the store's ids ascend the returned sequence is ordered by id
ascending, for every (by type non-negative) `skip` and `limit`. -/
theorem list_users_ordered (db : DB) (skip limit : Nat)
    (h : db.users.Pairwise (fun a b => a.id < b.id)) :
    (get_all_users db skip limit).users = (db.users.drop skip).take limit ∧
    ((get_all_users db skip limit).users).Pairwise
      (fun a b => a.id < b.id) := by
  refine ⟨rfl, ?_⟩
  have hsub : ((db.users.drop skip).take limit).Sublist db.users :=
    (List.take_sublist _ _).trans (List.drop_sublist _ _)
  exact List.Pairwise.sublist hsub h

/-- Witness for C9 on a concrete 15-user store. -/
theorem list_users_ordered_witness :
    (get_all_users db15 3 5).users = (db15.users.drop 3).take 5 ∧
    ((get_all_users db15 3 5).users).Pairwise (fun a b => a.id < b.id) :=
  list_users_ordered db15 3 5 (by decide)

/-! ## Claim C10: the two public user projections -/

/-- C10: register and get-by-username serialize through `UserResponse`
with exactly id, email, username, full_name and is_active — exposing the
active flag and omitting the creation timestamp — while the list-users
projection carries created_at and omits is_active. -/
theorem user_view_field_sets (db : DB) (now : Nat) (r : UserRegister)
    (uname : String) :
    (∀ u, (register db now r).1 = .ok u →
      registerResponseBody db now r = renderUserResponse u) ∧
    (∀ u, get_user_by_username db uname = .ok u →
      userByUsernameResponseBody db uname = renderUserResponse u) ∧
    (∀ u : User, bodyKeys (renderUserResponse u) =
      ["id", "email", "username", "full_name", "is_active"]) ∧
    (∀ u : User, "is_active" ∈ bodyKeys (renderUserResponse u) ∧
      "created_at" ∉ bodyKeys (renderUserResponse u)) ∧
    (∀ u : User, entryKeys (listUserEntry u) =
      ["id", "email", "username", "full_name", "created_at"]) ∧
    (∀ u : User, "created_at" ∈ entryKeys (listUserEntry u) ∧
      "is_active" ∉ entryKeys (listUserEntry u)) := by
  refine ⟨?_, ?_, fun u => bodyKeys_renderUserResponse u, ?_,
    fun u => entryKeys_listUserEntry u, ?_⟩
  · intro u hu
    simp [registerResponseBody, hu]
  · intro u hu
    simp [userByUsernameResponseBody, hu]
  · intro u
    refine ⟨?_, ?_⟩ <;> rw [bodyKeys_renderUserResponse] <;> decide
  · intro u
    refine ⟨?_, ?_⟩ <;> rw [entryKeys_listUserEntry] <;> decide

/-- Witness for C10 at a concrete registration and lookup. -/
theorem user_view_field_sets_witness :
    registerResponseBody wdb 3 carolReg =
      renderUserResponse (createdUser wdb 3 carolReg) ∧
    userByUsernameResponseBody wdb "alice" = renderUserResponse alice ∧
    bodyKeys (renderUserResponse alice) =
      ["id", "email", "username", "full_name", "is_active"] ∧
    entryKeys (listUserEntry alice) =
      ["id", "email", "username", "full_name", "created_at"] :=
  ⟨(user_view_field_sets wdb 3 carolReg "alice").1
      (createdUser wdb 3 carolReg) (by decide),
   (user_view_field_sets wdb 3 carolReg "alice").2.1 alice (by decide),
   (user_view_field_sets wdb 3 carolReg "alice").2.2.1 alice,
   (user_view_field_sets wdb 3 carolReg "alice").2.2.2.2.1 alice⟩

end Auth
